import Mathlib

/-!
# Verification of the AI Helpdesk chatbot core

A shallow embedding of the Index Lifecycle & Query Serving Core of the
ai-helpdesk-chatbot repository: `app/vector_store.py`, `app/chatbot.py`,
`etl/schedule_etl.py` and `monitor/metrics.py`.  External collaborators
(the llama-index engine, the Gemini model, the PDF downloader/processor,
the Discord webhook, the wall clock) are modelled as explicit environment
records of fallible functions (`Except String` models a Python call that
may raise); the embedded functions thread state and record the externally
observable events (retrieval calls, model invocations, alert emissions)
so that control-flow properties of the source are provable.
-/

namespace Helpdesk

/-! ## Logging and alerts -/

/-- Log severities used by the Python `logging` calls in the core. -/
inductive LogLevel
  | debug
  | info
  | warning
  | error
  deriving DecidableEq

/-- One emitted log record: severity and message. -/
structure LogEntry where
  level : LogLevel
  msg : String
  deriving DecidableEq

/-- One alert handed to `monitor/alerts.py`'s `AlertManager.send_alert`.
We record the `title`, `level` and `message` arguments of the invocation;
the Discord delivery itself and the extra keyword fields (counts, job id,
elapsed time) are external and not modelled. -/
structure Alert where
  title : String
  level : String
  message : String
  deriving DecidableEq

/-! ## Vector store (`app/vector_store.py`) -/

/-- A normalized document ready for indexing (its text). -/
abbrev Doc := String

/-- The opaque `VectorStoreIndex`; represented by the document list the
Index Engine built it from.  The engine itself is an environment function. -/
abbrev Index := List Doc

/-- Default `PDF_PROCESSED_DIR` from `app/config.py`. -/
def pdfProcessedDir : String := "./data/processed"

/-- Default `VECTOR_STORE_DIR` from `app/config.py`. -/
def vectorStoreDir : String := "./data/vector_store"

/-- The mutable state of a `VectorStore` object: the `self.index` slot
(`none` models Python `None`) together with the log records it emitted. -/
structure VSState where
  index : Option Index
  logs : List LogEntry
  deriving DecidableEq

/-- Environment for an index build: the filesystem facts and external
Index-Engine calls that `create_index`/`persist_index` perform.
`Except.error e` models the call raising an exception whose `str` is `e`. -/
structure BuildEnv where
  dirExists : Bool
  dirListing : List String
  loadData : Except String (List Doc)
  fromDocuments : List Doc → Except String Index
  persist : Index → Except String Unit

namespace VectorStore

/-- Embeds `VectorStore.persist_index`: if `self.index` is set, persist it and log;
the returned `Option String` is the exception propagated to the caller, if any. -/
def persist_index (env : BuildEnv) (s : VSState) : VSState × Option String :=
  match s.index with
  | none => (s, none)
  | some idx =>
    match env.persist idx with
    | .error e => (s, some e)
    | .ok _ =>
      ({ s with logs := s.logs ++ [⟨.info, "Index saved to " ++ vectorStoreDir⟩] }, none)

/-- Embeds `VectorStore.create_index`: skip (warning log, no exception) when the
processed-documents directory is missing or empty; otherwise load the
documents, build a new index, assign it to `self.index`, persist it, and
log; any exception in that `try` block is logged
(`"Error creating index: ..."`) and re-raised. -/
def create_index (env : BuildEnv) (s : VSState) : VSState × Option String :=
  if env.dirExists = false ∨ env.dirListing = [] then
    ({ s with logs := s.logs ++
        [⟨.warning, "No documents found in " ++ pdfProcessedDir ++ ". Index creation skipped."⟩] },
     none)
  else
    match env.loadData with
    | .error e =>
      ({ s with logs := s.logs ++ [⟨.error, "Error creating index: " ++ e⟩] }, some e)
    | .ok documents =>
      match env.fromDocuments documents with
      | .error e =>
        ({ s with logs := s.logs ++ [⟨.error, "Error creating index: " ++ e⟩] }, some e)
      | .ok idx =>
        match persist_index env { s with index := some idx } with
        | (s2, some e) =>
          ({ s2 with logs := s2.logs ++ [⟨.error, "Error creating index: " ++ e⟩] }, some e)
        | (s2, none) =>
          ({ s2 with logs := s2.logs ++
              [⟨.info, "Index created successfully with " ++
                toString documents.length ++ " documents"⟩] },
           none)

/-- Embeds `VectorStore.refresh_index`: log, delegate to `create_index`, and return
the fixed success string; an exception from `create_index` propagates
(`Except.error`). -/
def refresh_index (env : BuildEnv) (s : VSState) : VSState × Except String String :=
  match create_index env
      { s with logs := s.logs ++ [⟨.info, "Refreshing document index..."⟩] } with
  | (s1, some e) => (s1, .error e)
  | (s1, none) => (s1, .ok "Index refreshed successfully")

end VectorStore

/-- The response object returned by the query engine on success:
its text (`str(response)`) and its `get_formatted_sources()` string. -/
structure RagResponse where
  text : String
  formattedSources : String
  deriving DecidableEq

/-- What `VectorStore.query` returns: either a plain Python string (the
unavailable-index sentinel or an error description) or a response object. -/
inductive RagResult
  | plain (s : String)
  | resp (r : RagResponse)
  deriving DecidableEq

/-- Python `str()` applied to a `VectorStore.query` result. -/
def ragStr : RagResult → String
  | .plain s => s
  | .resp r => r.text

/-- Embeds `str(rag_context.get_formatted_sources()) if hasattr(...) else ""`:
a plain string has no `get_formatted_sources` attribute. -/
def formattedSourcesOf : RagResult → String
  | .plain _ => ""
  | .resp r => r.formattedSources

/-- The fixed sentinel `VectorStore.query` returns when `self.index` is unset. -/
def indexUnavailableMsg : String := "Sorry, the document index is not available right now."

/-- Environment for a retrieval: the external
`index.as_query_engine().query(...)` call. -/
structure QueryEnv where
  retrieve : Index → String → Except String RagResponse

/-- Embeds `VectorStore.query`: sentinel string when no index is loaded; otherwise
run the query engine, converting an exception into an error string. -/
def VectorStore.query (env : QueryEnv) (index : Option Index) (q : String) : RagResult :=
  match index with
  | none => .plain indexUnavailableMsg
  | some idx =>
    match env.retrieve idx q with
    | .ok r => .resp r
    | .error e => .plain ("Error processing query: " ++ e)

/-! ## Chatbot (`app/chatbot.py`) -/

/-- One conversation-history entry, a Python dict whose `role`/`content`
keys may be absent (`none`); `message.get(key, "")` is `Option.getD`. -/
structure Message where
  role : Option String
  content : Option String
  deriving DecidableEq

/-- A message in Gemini chat format: `{"role": r, "parts": [c]}`. -/
structure GeminiMsg where
  role : String
  parts : List String
  deriving DecidableEq

/-- Python `l[-n:]` for a fixed positive `n`: the last `n` elements. -/
def lastN (n : Nat) (l : List α) : List α := l.drop (l.length - n)

/-- The `gemini_messages` list built by `Chatbot.get_response`: the last 5
history entries in order, mapped to Gemini format (`user` kept as `user`,
`assistant` renamed `model`), entries with any other role dropped.
The source populates this list and never uses it afterwards. -/
def geminiMessages (history : List Message) : List GeminiMsg :=
  (lastN 5 history).filterMap fun m =>
    let role := m.role.getD ""
    let content := m.content.getD ""
    if role = "user" then some ⟨"user", [content]⟩
    else if role = "assistant" then some ⟨"model", [content]⟩
    else none

/-- Externally observable events of one `get_response` call, in order:
the retrieval against the vector store, and the model invocation
(`chat = start_chat(history=...)` followed by `chat.send_message(prompt)`,
recorded with the chat history and the prompt actually sent). -/
inductive ChatEvent
  | retrievalOn (q : String)
  | modelOn (chatHistory : List GeminiMsg) (prompt : String)
  deriving DecidableEq

/-- Environment of one `get_response` call: the current `self.index`, the
retrieval engine, the Gemini `send_message` call (given the chat history the
chat was started with and the prompt), and the wall-clock elapsed times
observed on the success and on the exception path. -/
structure ChatEnv where
  queryEnv : QueryEnv
  index : Option Index
  sendMessage : List GeminiMsg → String → Except String String
  elapsedOk : ℚ
  elapsedErr : ℚ

/-- The dict `Chatbot.get_response` returns: `sources` is present only on
the success path, `error` only on the exception path. -/
structure QueryResult where
  answer : String
  sources : Option String
  error : Option String
  response_time : ℚ
  deriving DecidableEq

/-- The fixed user-safe fallback answer of the `except` branch
(`"I'm sorry, I encountered an error processing your request."`). -/
def fallbackAnswer : String :=
  "I" ++ String.singleton (Char.ofNat 39) ++
    "m sorry, I encountered an error processing your request."

/-- The prompt f-string `get_response` composes:
`f"Context: {context_str}\n\nQuestion: {query}"`.  Note it mentions no
conversation history. -/
def promptOf (env : ChatEnv) (q : String) : String :=
  "Context: " ++ ragStr (VectorStore.query env.queryEnv env.index q) ++ "\n\nQuestion: " ++ q

namespace Chatbot

/-- Embeds `Chatbot.get_response`: retrieve context, compose the prompt, invoke the
model on a chat started with an empty history, and return the result dict;
any exception inside the `try` block yields the fallback dict — the function
is total, no exception reaches the caller.  The source also builds
`system_prompt` and `gemini_messages` (see `geminiMessages`) between these
steps, but neither is ever passed to the model: the chat is started with
`history=[]` and `send_message` receives only `prompt`. -/
def get_response (env : ChatEnv) (query : String) (history : List Message) :
    QueryResult × List ChatEvent :=
  let ragContext := VectorStore.query env.queryEnv env.index query
  let contextStr := ragStr ragContext
  let prompt := "Context: " ++ contextStr ++ "\n\nQuestion: " ++ query
  let result : QueryResult :=
    match env.sendMessage [] prompt with
    | .ok text =>
      { answer := text
        sources := some (formattedSourcesOf ragContext)
        error := none
        response_time := env.elapsedOk }
    | .error e =>
      { answer := fallbackAnswer
        sources := none
        error := some e
        response_time := env.elapsedErr }
  (result, [ChatEvent.retrievalOn query, ChatEvent.modelOn [] prompt])

end Chatbot

/-! ## ETL scheduler (`etl/schedule_etl.py`) -/

/-- Environment of one `run_etl_job` run: the URL-file check, the external
downloader and PDF-processor calls, the metadata generation, the job id
string (a timestamp in the source), and the build environment used by the
vector store refresh. -/
structure ETLEnv where
  urlFileExists : Bool
  downloadFromFile : Except String (List String)
  processAllPdfs : Except String (List String)
  generateMetadataCsv : List String → Except String String
  jobId : String
  buildEnv : BuildEnv

/-- Shared state the scheduler threads through a run: its `VectorStore`
and the alerts handed to the `AlertManager` singleton. -/
structure ETLState where
  vs : VSState
  alerts : List Alert
  deriving DecidableEq

/-- Embeds `alerts.send_error_alert(error_type="ETL Job Failure", error_message=e, ...)`
as called from `run_etl_job`'s `except` block: a `send_alert` invocation with
title `"System Error: ETL Job Failure"` and level `"error"`. -/
def sendErrorAlert (s : ETLState) (e : String) : ETLState :=
  { s with alerts := s.alerts ++ [⟨"System Error: ETL Job Failure", "error", e⟩] }

/-- The completion alert `run_etl_job` sends on success (level `"info"`). -/
def completedAlert (jobId : String) : Alert :=
  ⟨"ETL Job Completed", "info", "ETL job " ++ jobId ++ " completed successfully"⟩

/-- Externally observable events of scheduler runs, tagged with a call id so
that behaviours of two concurrent calls can be interleaved.  The source has
no synchronization and no rejection path; `busyRejected` is included so that
the absence of any busy rejection in the code's behaviour is expressible —
no embedded code path emits it. -/
inductive ETLEvent
  | jobStart (cid : Nat)
  | refreshed (cid : Nat)
  | alerted (cid : Nat) (level : String)
  | jobReturn (cid : Nat) (ok : Bool)
  | busyRejected (cid : Nat)
  deriving DecidableEq

/-- Result of one scheduler run: final state, the Python return value
(`True`/`False`), and the event trace. -/
structure ETLRun where
  state : ETLState
  ok : Bool
  events : List ETLEvent
  deriving DecidableEq

namespace ETLScheduler

/-- Embeds `ETLScheduler.run_etl_job`: download (only when the URL file exists),
process, generate metadata and refresh the index (both only when at least
one file was processed), send the info completion alert and return `True`;
any exception is caught, an error alert is sent, and `False` is returned —
the method itself never raises. -/
def run_etl_job (cid : Nat) (env : ETLEnv) (s : ETLState) : ETLRun :=
  let failWith := fun (st : ETLState) (e : String) (evs : List ETLEvent) =>
    ETLRun.mk (sendErrorAlert st e) false
      (evs ++ [ETLEvent.alerted cid "error", ETLEvent.jobReturn cid false])
  let ev0 := [ETLEvent.jobStart cid]
  match (if env.urlFileExists then env.downloadFromFile else .ok []) with
  | .error e => failWith s e ev0
  | .ok _downloaded =>
    match env.processAllPdfs with
    | .error e => failWith s e ev0
    | .ok processed =>
      if processed = [] then
        { state := { s with alerts := s.alerts ++ [completedAlert env.jobId] }
          ok := true
          events := ev0 ++ [ETLEvent.alerted cid "info", ETLEvent.jobReturn cid true] }
      else
        match env.generateMetadataCsv processed with
        | .error e => failWith s e ev0
        | .ok _metadataFile =>
          match VectorStore.refresh_index env.buildEnv s.vs with
          | (vs1, .error e) => failWith { s with vs := vs1 } e (ev0 ++ [ETLEvent.refreshed cid])
          | (vs1, .ok _) =>
            { state := { vs := vs1, alerts := s.alerts ++ [completedAlert env.jobId] }
              ok := true
              events := ev0 ++ [ETLEvent.refreshed cid,
                ETLEvent.alerted cid "info", ETLEvent.jobReturn cid true] }

/-- Embeds `ETLScheduler.run_now`: logs `"Running ETL job now"` (log line not
modelled) and unconditionally delegates to `run_etl_job`.  There is no
busy flag, lock, or any other guard in the class. -/
def run_now (cid : Nat) (env : ETLEnv) (s : ETLState) : ETLRun :=
  run_etl_job cid env s

end ETLScheduler

/-! ## Concurrency model

The scheduler takes no lock: `run_now` reads no shared run-in-progress
state.  Two calls executing on concurrent threads may therefore interleave
their externally observable events arbitrarily; `interleaves l r t` decides
whether `t` is such an interleaving of the two calls' solo traces
(which are determined by each call's environment alone). -/

/-- Holds when `t` is an order-preserving merge of `l` and `r`. -/
def interleaves [DecidableEq α] : List α → List α → List α → Bool
  | [], [], [] => true
  | _, _, [] => false
  | l, r, x :: t =>
    (match l with
     | y :: l2 => y = x && interleaves l2 r t
     | [] => false)
    || (match r with
        | y :: r2 => y = x && interleaves l r2 t
        | [] => false)

/-! ## Metrics (`monitor/metrics.py`) -/

namespace MetricsServer

/-- Embeds `MetricsServer.record_token_usage`: the `TOKEN_USAGE` counter (modelled
as its running total) is incremented exactly when
`not ENABLE_METRICS and count > 0`; `enableMetrics` is the module-level
`ENABLE_METRICS` configuration flag. -/
def record_token_usage (enableMetrics : Bool) (count : ℤ) (tokenUsage : ℤ) : ℤ :=
  if enableMetrics = false ∧ 0 < count then tokenUsage + count else tokenUsage

/-- Embeds `MetricsServer.record_context_relevance`: the `CONTEXT_RELEVANCE`
histogram (modelled as its list of observations) records `score` exactly
when `not ENABLE_METRICS and 0 <= score <= 1`. -/
def record_context_relevance (enableMetrics : Bool) (score : ℚ) (obs : List ℚ) : List ℚ :=
  if enableMetrics = false ∧ 0 ≤ score ∧ score ≤ 1 then obs ++ [score] else obs

end MetricsServer


/-! ## Concrete instances used by witnesses and counterexamples -/

/-- A chat environment with a loaded index, a retrieval returning a fixed
response, and a model answering `"ans"`. -/
def envC1 : ChatEnv :=
  { queryEnv := ⟨fun _ _ => .ok ⟨"CTX", "SRC"⟩⟩
    index := some ["d"]
    sendMessage := fun _ _ => .ok "ans"
    elapsedOk := 1
    elapsedErr := 2 }

/-- A six-message history of user messages `m1` … `m6`. -/
def histC1 : List Message :=
  [⟨some "user", some "m1"⟩, ⟨some "user", some "m2"⟩, ⟨some "user", some "m3"⟩,
   ⟨some "user", some "m4"⟩, ⟨some "user", some "m5"⟩, ⟨some "user", some "m6"⟩]

/-- A chat environment identical to `envC1`, used for the empty-query scenario. -/
def envC2 : ChatEnv :=
  { queryEnv := ⟨fun _ _ => .ok ⟨"CTX", "SRC"⟩⟩
    index := some ["d"]
    sendMessage := fun _ _ => .ok "ans"
    elapsedOk := 1
    elapsedErr := 2 }

/-- A chat environment with no index loaded and a model answering `"hello"`. -/
def envC3 : ChatEnv :=
  { queryEnv := ⟨fun _ _ => .error "unused"⟩
    index := none
    sendMessage := fun _ _ => .ok "hello"
    elapsedOk := 1
    elapsedErr := 2 }

/-- A chat environment whose model invocation raises `"boom"`. -/
def envC7 : ChatEnv :=
  { queryEnv := ⟨fun _ _ => .ok ⟨"CTX", "SRC"⟩⟩
    index := some ["d"]
    sendMessage := fun _ _ => .error "boom"
    elapsedOk := 1
    elapsedErr := 2 }

/-- A build environment whose processed-documents directory is missing. -/
def envC4 : BuildEnv :=
  { dirExists := false
    dirListing := []
    loadData := .ok []
    fromDocuments := fun d => .ok d
    persist := fun _ => .ok () }

/-- A vector-store state holding a previously built index. -/
def vsC4 : VSState := ⟨some ["old"], []⟩

/-- An ETL environment whose run downloads and processes nothing. -/
def envC6 : ETLEnv :=
  { urlFileExists := false
    downloadFromFile := .ok []
    processAllPdfs := .ok []
    generateMetadataCsv := fun _ => .ok ""
    jobId := "20250101000000"
    buildEnv := envC4 }

/-- An initial scheduler state: no index, no logs, no alerts. -/
def stC6 : ETLState := ⟨⟨none, []⟩, []⟩

/-- A trace in which call 2 arrives while call 1 is mid-run and both runs
execute to completion. -/
def doubleRunTrace : List ETLEvent :=
  [.jobStart 1, .jobStart 2, .alerted 2 "info", .jobReturn 2 true,
   .alerted 1 "info", .jobReturn 1 true]

/-- An ETL environment that processes one file and whose index build fails. -/
def envC5 : ETLEnv :=
  { urlFileExists := false
    downloadFromFile := .ok []
    processAllPdfs := .ok ["f.pdf"]
    generateMetadataCsv := fun _ => .ok "metadata.csv"
    jobId := "20250101000000"
    buildEnv :=
      { dirExists := true
        dirListing := ["x.txt"]
        loadData := .ok ["d1"]
        fromDocuments := fun _ => .error "boom"
        persist := fun _ => .ok () } }

/-- A scheduler state holding a previously built index. -/
def stC5 : ETLState := ⟨⟨some ["old"], []⟩, []⟩

/-- An ETL environment that processes one file, builds successfully, and
whose persist step fails. -/
def envC9 : ETLEnv :=
  { urlFileExists := false
    downloadFromFile := .ok []
    processAllPdfs := .ok ["f.pdf"]
    generateMetadataCsv := fun _ => .ok "metadata.csv"
    jobId := "20250101000000"
    buildEnv :=
      { dirExists := true
        dirListing := ["x.txt"]
        loadData := .ok ["d1"]
        fromDocuments := fun d => .ok d
        persist := fun _ => .error "disk full" } }

/-- An ETL environment that processes one file with every step succeeding. -/
def envC10b : ETLEnv :=
  { urlFileExists := false
    downloadFromFile := .ok []
    processAllPdfs := .ok ["f.pdf"]
    generateMetadataCsv := fun _ => .ok "metadata.csv"
    jobId := "20250101000000"
    buildEnv :=
      { dirExists := true
        dirListing := ["x.txt"]
        loadData := .ok ["d1"]
        fromDocuments := fun d => .ok d
        persist := fun _ => .ok () } }

/-! ## Claim theorems -/

/-- C1: the claim states the prompt composed for the model contains exactly
the last `min(L, 5)` history messages.  In the source, `gemini_messages`
does compute the last-5 truncation with unrecognized roles dropped, but the
list is never used: the chat is started with `history=[]` and the only text
sent is `"Context: ...\n\nQuestion: ..."`.  At the failing input (six user
messages), the prepared truncation has 5 messages, yet the model invocation
carries an empty chat history and a prompt containing none of them. -/
theorem C1_history_never_reaches_model :
    (∀ env q h, (Chatbot.get_response env q h).2 =
        [ChatEvent.retrievalOn q, ChatEvent.modelOn [] (promptOf env q)])
    ∧ geminiMessages histC1 =
        [⟨"user", ["m2"]⟩, ⟨"user", ["m3"]⟩, ⟨"user", ["m4"]⟩,
         ⟨"user", ["m5"]⟩, ⟨"user", ["m6"]⟩]
    ∧ (Chatbot.get_response envC1 "hi" histC1).2 =
        [ChatEvent.retrievalOn "hi", ChatEvent.modelOn [] "Context: CTX\n\nQuestion: hi"] :=
  ⟨fun _ _ _ => rfl, rfl, rfl⟩

/-- C2 counterexample: on the empty query, `get_response` performs the
retrieval and the model invocation and returns an ordinary answer — there
is no `InvalidInput` rejection in the code. -/
theorem C2_counterexample :
    (Chatbot.get_response envC2 "" []).2 =
        [ChatEvent.retrievalOn "", ChatEvent.modelOn [] "Context: CTX\n\nQuestion: "]
    ∧ (Chatbot.get_response envC2 "" []).1 =
        { answer := "ans", sources := some "SRC", error := none, response_time := 1 } :=
  ⟨rfl, rfl⟩

/-- C2 amended: `get_response` performs no query validation at all; every
query — empty or whitespace-only included — is sent to retrieval and then
to the model like any other. -/
theorem C2_no_validation (env : ChatEnv) (q : String) (history : List Message) :
    ChatEvent.retrievalOn q ∈ (Chatbot.get_response env q history).2
    ∧ ChatEvent.modelOn [] (promptOf env q) ∈ (Chatbot.get_response env q history).2 := by
  constructor <;> simp [Chatbot.get_response, promptOf]

/-- C2 witness: the amended statement at the concrete empty query. -/
theorem C2_no_validation_witness :
    ChatEvent.retrievalOn "" ∈ (Chatbot.get_response envC2 "" []).2
    ∧ ChatEvent.modelOn [] (promptOf envC2 "") ∈ (Chatbot.get_response envC2 "" []).2 :=
  C2_no_validation envC2 "" []

/-- C3 counterexample: with no index available, the answer returned by
`get_response` is whatever the model produced (`"hello"` here), not a fixed
degraded-mode message, and the model is invoked with the sentinel embedded
in the prompt — contradicting the claim that the answer is a fixed
index-not-available message. -/
theorem C3_counterexample :
    (Chatbot.get_response envC3 "What is X?" []).1.answer = "hello"
    ∧ (Chatbot.get_response envC3 "What is X?" []).1.answer ≠ indexUnavailableMsg
    ∧ (Chatbot.get_response envC3 "What is X?" []).2 =
        [ChatEvent.retrievalOn "What is X?",
         ChatEvent.modelOn []
           ("Context: " ++ indexUnavailableMsg ++ "\n\nQuestion: What is X?")] :=
  ⟨rfl, by decide, rfl⟩

/-- C3 amended: when no index is available, `VectorStore.query` returns the
fixed sentinel string without raising, and `get_response` does not treat it
specially — it invokes the model with the sentinel as the context part of
the prompt and returns the model answer with the error field absent. -/
theorem C3_unavailable_index_flows_to_model
    (env : ChatEnv) (q : String) (history : List Message) (t : String)
    (hidx : env.index = none)
    (hllm : env.sendMessage []
        ("Context: " ++ indexUnavailableMsg ++ "\n\nQuestion: " ++ q) = .ok t) :
    VectorStore.query env.queryEnv env.index q = .plain indexUnavailableMsg
    ∧ (Chatbot.get_response env q history).1 =
        { answer := t, sources := some "", error := none, response_time := env.elapsedOk }
    ∧ ChatEvent.modelOn [] ("Context: " ++ indexUnavailableMsg ++ "\n\nQuestion: " ++ q)
        ∈ (Chatbot.get_response env q history).2 := by
  refine ⟨by rw [hidx]; rfl, ?_, ?_⟩
  · simp [Chatbot.get_response, VectorStore.query, hidx, ragStr, formattedSourcesOf, hllm]
  · simp [Chatbot.get_response, VectorStore.query, hidx, ragStr]

/-- C3 witness: the amended statement at a concrete unavailable-index state. -/
theorem C3_unavailable_index_witness :
    VectorStore.query envC3.queryEnv envC3.index "q" = .plain indexUnavailableMsg
    ∧ (Chatbot.get_response envC3 "q" []).1 =
        { answer := "hello", sources := some "", error := none,
          response_time := envC3.elapsedOk }
    ∧ ChatEvent.modelOn [] ("Context: " ++ indexUnavailableMsg ++ "\n\nQuestion: " ++ "q")
        ∈ (Chatbot.get_response envC3 "q" []).2 :=
  C3_unavailable_index_flows_to_model envC3 "q" [] "hello" rfl rfl

/-- C7: when the model invocation raises, `get_response` returns the fixed
user-safe fallback answer together with the originating error description
and the elapsed time measured on the exception path; the embedded function
is total, so no exception reaches the caller. -/
theorem C7_model_failure_safe
    (env : ChatEnv) (q : String) (history : List Message) (e : String)
    (h : env.sendMessage [] (promptOf env q) = .error e) :
    (Chatbot.get_response env q history).1 =
      { answer := fallbackAnswer, sources := none, error := some e,
        response_time := env.elapsedErr } := by
  simp only [promptOf] at h
  simp [Chatbot.get_response, h]

/-- C7 witness: the fallback result at a concrete failing model call. -/
theorem C7_model_failure_witness :
    (Chatbot.get_response envC7 "q" []).1 =
      { answer := fallbackAnswer, sources := none, error := some "boom",
        response_time := envC7.elapsedErr } :=
  C7_model_failure_safe envC7 "q" [] "boom" rfl

/-- C8: both metric recorders carry the inverted guard: with metrics
enabled they do nothing, and with metrics disabled they record exactly
under the stated side conditions (`count > 0`, `0 <= score <= 1`). -/
theorem C8_inverted_metrics_guard (c t : ℤ) (score : ℚ) (obs : List ℚ) :
    MetricsServer.record_token_usage true c t = t
    ∧ MetricsServer.record_context_relevance true score obs = obs
    ∧ (MetricsServer.record_token_usage false c t ≠ t ↔ 0 < c)
    ∧ (MetricsServer.record_context_relevance false score obs ≠ obs
        ↔ 0 ≤ score ∧ score ≤ 1) := by
  refine ⟨by simp [MetricsServer.record_token_usage],
          by simp [MetricsServer.record_context_relevance], ?_, ?_⟩
  · by_cases h : (0 : ℤ) < c
    · have hrw : MetricsServer.record_token_usage false c t = t + c := by
        simp [MetricsServer.record_token_usage, h]
      rw [hrw]
      omega
    · have hrw : MetricsServer.record_token_usage false c t = t := by
        simp [MetricsServer.record_token_usage, h]
      rw [hrw]
      simp [h]
  · by_cases h : (0 : ℚ) ≤ score ∧ score ≤ 1
    · have hrw : MetricsServer.record_context_relevance false score obs = obs ++ [score] := by
        simp [MetricsServer.record_context_relevance, h]
      rw [hrw]
      constructor
      · intro _
        exact h
      · intro _ heq
        have hlen := congrArg List.length heq
        simp at hlen
    · have hrw : MetricsServer.record_context_relevance false score obs = obs := by
        simp [MetricsServer.record_context_relevance, h]
      rw [hrw]
      simp [h]

/-- C8 witness: the guard characterization at concrete values. -/
theorem C8_inverted_metrics_witness :
    MetricsServer.record_token_usage true 3 10 = 10
    ∧ MetricsServer.record_context_relevance true (1/2) [] = []
    ∧ (MetricsServer.record_token_usage false 3 10 ≠ 10 ↔ (0 : ℤ) < 3)
    ∧ (MetricsServer.record_context_relevance false (1/2) [] ≠ []
        ↔ (0 : ℚ) ≤ 1/2 ∧ (1/2 : ℚ) ≤ 1) :=
  C8_inverted_metrics_guard 3 10 (1/2) []

/-- Helper: with the processed-documents directory missing or empty,
`create_index` only appends the skip warning and raises nothing. -/
theorem create_index_skip (env : BuildEnv) (s : VSState)
    (h : env.dirExists = false ∨ env.dirListing = []) :
    VectorStore.create_index env s =
      ({ s with logs := s.logs ++
          [⟨.warning, "No documents found in " ++ pdfProcessedDir ++
            ". Index creation skipped."⟩] },
       none) := by
  unfold VectorStore.create_index
  rw [if_pos h]

/-- Helper: when the Index Engine build step raises, `create_index` leaves
the index slot unchanged, logs the error, and re-raises. -/
theorem create_index_build_fail (env : BuildEnv) (s : VSState) (docs : List Doc) (e : String)
    (hdir : env.dirExists = true) (hlist : env.dirListing ≠ [])
    (hload : env.loadData = .ok docs) (hbuild : env.fromDocuments docs = .error e) :
    VectorStore.create_index env s =
      ({ s with logs := s.logs ++ [⟨.error, "Error creating index: " ++ e⟩] }, some e) := by
  unfold VectorStore.create_index
  rw [if_neg (by simp [hdir, hlist])]
  simp [hload, hbuild]

/-- Helper: when the build succeeds but persisting raises, `create_index`
keeps the newly assigned index, logs the error, and re-raises. -/
theorem create_index_persist_fail (env : BuildEnv) (s : VSState)
    (docs : List Doc) (newIdx : Index) (pe : String)
    (hdir : env.dirExists = true) (hlist : env.dirListing ≠ [])
    (hload : env.loadData = .ok docs) (hbuild : env.fromDocuments docs = .ok newIdx)
    (hpersist : env.persist newIdx = .error pe) :
    VectorStore.create_index env s =
      ({ index := some newIdx,
         logs := s.logs ++ [⟨.error, "Error creating index: " ++ pe⟩] }, some pe) := by
  unfold VectorStore.create_index VectorStore.persist_index
  rw [if_neg (by simp [hdir, hlist])]
  simp [hload, hbuild, hpersist]

/-- C4: rebuilding with an empty document set is a no-op on the published
index: `create_index` leaves `self.index` unchanged, raises nothing, and
reports the skip through its warning log, and `refresh_index` likewise
leaves the index unchanged and returns without error. -/
theorem C4_empty_rebuild_skipped (env : BuildEnv) (s : VSState)
    (h : env.dirExists = false ∨ env.dirListing = []) :
    (VectorStore.create_index env s).1.index = s.index
    ∧ (VectorStore.create_index env s).2 = none
    ∧ (VectorStore.create_index env s).1.logs = s.logs ++
        [⟨.warning, "No documents found in " ++ pdfProcessedDir ++
          ". Index creation skipped."⟩]
    ∧ (VectorStore.refresh_index env s).1.index = s.index
    ∧ (VectorStore.refresh_index env s).2 = .ok "Index refreshed successfully" := by
  have hc := create_index_skip env s h
  have hc2 := create_index_skip env
    { s with logs := s.logs ++ [⟨.info, "Refreshing document index..."⟩] } h
  unfold VectorStore.refresh_index
  rw [hc, hc2]
  simp

/-- C4 witness: the skip behaviour at a concrete empty directory with a
previously built index present. -/
theorem C4_empty_rebuild_witness :
    (VectorStore.create_index envC4 vsC4).1.index = vsC4.index
    ∧ (VectorStore.create_index envC4 vsC4).2 = none
    ∧ (VectorStore.create_index envC4 vsC4).1.logs = vsC4.logs ++
        [⟨.warning, "No documents found in " ++ pdfProcessedDir ++
          ". Index creation skipped."⟩]
    ∧ (VectorStore.refresh_index envC4 vsC4).1.index = vsC4.index
    ∧ (VectorStore.refresh_index envC4 vsC4).2 = .ok "Index refreshed successfully" :=
  C4_empty_rebuild_skipped envC4 vsC4 (Or.inl rfl)

/-- C5: when the index build step raises while a prior snapshot is current,
the run leaves the prior snapshot in place, `refresh_index` reports the
failure to its caller, the job returns failure, and an alert of severity
`"error"` is recorded. -/
theorem C5_build_failure_leaves_snapshot
    (cid : Nat) (env : ETLEnv) (s : ETLState) (oldIdx : Index)
    (docs : List Doc) (files : List String) (mf e : String) (dl : List String)
    (hidx : s.vs.index = some oldIdx)
    (hdl : (if env.urlFileExists then env.downloadFromFile else Except.ok []) = .ok dl)
    (hp : env.processAllPdfs = .ok files)
    (hf : files ≠ [])
    (hm : env.generateMetadataCsv files = .ok mf)
    (hdir : env.buildEnv.dirExists = true)
    (hlist : env.buildEnv.dirListing ≠ [])
    (hload : env.buildEnv.loadData = .ok docs)
    (hbuild : env.buildEnv.fromDocuments docs = .error e) :
    (ETLScheduler.run_etl_job cid env s).state.vs.index = some oldIdx
    ∧ (ETLScheduler.run_etl_job cid env s).ok = false
    ∧ (ETLScheduler.run_etl_job cid env s).state.alerts =
        s.alerts ++ [⟨"System Error: ETL Job Failure", "error", e⟩]
    ∧ (VectorStore.refresh_index env.buildEnv s.vs).2 = .error e := by
  have hc := create_index_build_fail env.buildEnv
    { s.vs with logs := s.vs.logs ++ [⟨.info, "Refreshing document index..."⟩] }
    docs e hdir hlist hload hbuild
  have hr : VectorStore.refresh_index env.buildEnv s.vs =
      ({ s.vs with logs := (s.vs.logs ++ [⟨.info, "Refreshing document index..."⟩]) ++
          [⟨.error, "Error creating index: " ++ e⟩] }, .error e) := by
    unfold VectorStore.refresh_index
    rw [hc]
  unfold ETLScheduler.run_etl_job
  simp [hdl, hp, hm, hr, hf, sendErrorAlert, hidx]

/-- C5 witness: the failed-build run at a concrete environment with a prior
snapshot. -/
theorem C5_build_failure_witness :
    (ETLScheduler.run_etl_job 1 envC5 stC5).state.vs.index = some ["old"]
    ∧ (ETLScheduler.run_etl_job 1 envC5 stC5).ok = false
    ∧ (ETLScheduler.run_etl_job 1 envC5 stC5).state.alerts =
        stC5.alerts ++ [⟨"System Error: ETL Job Failure", "error", "boom"⟩]
    ∧ (VectorStore.refresh_index envC5.buildEnv stC5.vs).2 = .error "boom" :=
  C5_build_failure_leaves_snapshot 1 envC5 stC5 ["old"] ["d1"] ["f.pdf"]
    "metadata.csv" "boom" [] rfl rfl rfl (by decide) rfl rfl (by decide) rfl rfl

/-- C9: when the build succeeds but persisting to durable storage fails,
the in-memory publish stands — the new index remains current in the final
state — the persist failure is logged, and the run reports it as an error
alert rather than rolling the publish back. -/
theorem C9_persist_failure_publish_stands
    (cid : Nat) (env : ETLEnv) (s : ETLState)
    (docs : List Doc) (newIdx : Index) (files : List String) (mf pe : String)
    (dl : List String)
    (hdl : (if env.urlFileExists then env.downloadFromFile else Except.ok []) = .ok dl)
    (hp : env.processAllPdfs = .ok files)
    (hf : files ≠ [])
    (hm : env.generateMetadataCsv files = .ok mf)
    (hdir : env.buildEnv.dirExists = true)
    (hlist : env.buildEnv.dirListing ≠ [])
    (hload : env.buildEnv.loadData = .ok docs)
    (hbuild : env.buildEnv.fromDocuments docs = .ok newIdx)
    (hpersist : env.buildEnv.persist newIdx = .error pe) :
    (ETLScheduler.run_etl_job cid env s).state.vs.index = some newIdx
    ∧ (⟨.error, "Error creating index: " ++ pe⟩ : LogEntry) ∈
        (ETLScheduler.run_etl_job cid env s).state.vs.logs
    ∧ (ETLScheduler.run_etl_job cid env s).state.alerts =
        s.alerts ++ [⟨"System Error: ETL Job Failure", "error", pe⟩]
    ∧ (ETLScheduler.run_etl_job cid env s).ok = false := by
  have hc := create_index_persist_fail env.buildEnv
    { s.vs with logs := s.vs.logs ++ [⟨.info, "Refreshing document index..."⟩] }
    docs newIdx pe hdir hlist hload hbuild hpersist
  have hr : VectorStore.refresh_index env.buildEnv s.vs =
      ({ index := some newIdx,
         logs := (s.vs.logs ++ [⟨.info, "Refreshing document index..."⟩]) ++
          [⟨.error, "Error creating index: " ++ pe⟩] }, .error pe) := by
    unfold VectorStore.refresh_index
    rw [hc]
  unfold ETLScheduler.run_etl_job
  simp [hdl, hp, hm, hr, hf, sendErrorAlert]

/-- C9 witness: the persist-failure run at a concrete environment. -/
theorem C9_persist_failure_witness :
    (ETLScheduler.run_etl_job 1 envC9 stC5).state.vs.index = some ["d1"]
    ∧ (⟨.error, "Error creating index: " ++ "disk full"⟩ : LogEntry) ∈
        (ETLScheduler.run_etl_job 1 envC9 stC5).state.vs.logs
    ∧ (ETLScheduler.run_etl_job 1 envC9 stC5).state.alerts =
        stC5.alerts ++ [⟨"System Error: ETL Job Failure", "error", "disk full"⟩]
    ∧ (ETLScheduler.run_etl_job 1 envC9 stC5).ok = false :=
  C9_persist_failure_publish_stands 1 envC9 stC5 ["d1"] ["d1"] ["f.pdf"]
    "metadata.csv" "disk full" [] rfl rfl (by decide) rfl rfl (by decide) rfl rfl rfl

/-- C10: in a run where no step raises, the vector store is refreshed if
and only if at least one file was processed; a run that processes nothing
still returns `True`, emits the info completion alert, and leaves the
vector store untouched. -/
theorem C10_refresh_iff_processed
    (cid : Nat) (env : ETLEnv) (s : ETLState) (dl : List String)
    (hdl : (if env.urlFileExists then env.downloadFromFile else Except.ok []) = .ok dl) :
    (env.processAllPdfs = .ok [] →
      (ETLScheduler.run_etl_job cid env s).ok = true
      ∧ (ETLScheduler.run_etl_job cid env s).state.vs = s.vs
      ∧ ETLEvent.refreshed cid ∉ (ETLScheduler.run_etl_job cid env s).events
      ∧ (ETLScheduler.run_etl_job cid env s).state.alerts =
          s.alerts ++ [completedAlert env.jobId])
    ∧ (∀ files mf, files ≠ [] → env.processAllPdfs = .ok files →
        env.generateMetadataCsv files = .ok mf →
        ETLEvent.refreshed cid ∈ (ETLScheduler.run_etl_job cid env s).events) := by
  constructor
  · intro hp
    unfold ETLScheduler.run_etl_job
    simp [hdl, hp, completedAlert]
  · intro files mf hf hp hm
    unfold ETLScheduler.run_etl_job
    rcases hr : VectorStore.refresh_index env.buildEnv s.vs with ⟨vs1, r⟩
    cases r <;> simp [hdl, hp, hm, hf, hr]

/-- C10 witness: both directions at concrete runs — one processing nothing
(`envC6`), one processing a file with every step succeeding (`envC10b`). -/
theorem C10_refresh_iff_witness :
    ((ETLScheduler.run_etl_job 1 envC6 stC6).ok = true
      ∧ (ETLScheduler.run_etl_job 1 envC6 stC6).state.vs = stC6.vs
      ∧ ETLEvent.refreshed 1 ∉ (ETLScheduler.run_etl_job 1 envC6 stC6).events
      ∧ (ETLScheduler.run_etl_job 1 envC6 stC6).state.alerts =
          stC6.alerts ++ [completedAlert envC6.jobId])
    ∧ ETLEvent.refreshed 1 ∈ (ETLScheduler.run_etl_job 1 envC10b stC6).events :=
  ⟨(C10_refresh_iff_processed 1 envC6 stC6 [] rfl).1 rfl,
   (C10_refresh_iff_processed 1 envC10b stC6 [] rfl).2 ["f.pdf"] "metadata.csv"
     (by decide) rfl rfl⟩

/-- C6 counterexample: the claim requires a call arriving while a run is in
progress to be rejected with a busy outcome.  The scheduler has no
synchronization, so any interleaving of two calls' solo event traces is an
admissible concurrent behaviour; in the exhibited trace call 2 starts
between call 1's start and return, yet call 2 executes its full run and
returns the job outcome `True` — no busy rejection occurs anywhere. -/
theorem C6_counterexample :
    interleaves (ETLScheduler.run_now 1 envC6 stC6).events
        (ETLScheduler.run_now 2 envC6 stC6).events doubleRunTrace = true
    ∧ doubleRunTrace =
        [.jobStart 1, .jobStart 2, .alerted 2 "info", .jobReturn 2 true,
         .alerted 1 "info", .jobReturn 1 true]
    ∧ ETLEvent.jobReturn 2 true ∈ doubleRunTrace
    ∧ (ETLScheduler.run_now 2 envC6 stC6).ok = true
    ∧ ETLEvent.busyRejected 2 ∉ doubleRunTrace := by
  decide

/-- C6 amended: `run_now` has no concurrency guard whatsoever — it is
literally `run_etl_job`, whose behaviour inspects no run-in-progress state
and never emits a busy rejection; a call made while another run is active
therefore starts a second full run and returns that run's outcome. -/
theorem C6_no_busy_guard (cid : Nat) (env : ETLEnv) (s : ETLState) :
    ETLScheduler.run_now cid env s = ETLScheduler.run_etl_job cid env s
    ∧ ∀ c, ETLEvent.busyRejected c ∉ (ETLScheduler.run_now cid env s).events := by
  refine ⟨rfl, fun c => ?_⟩
  unfold ETLScheduler.run_now ETLScheduler.run_etl_job
  repeat' split
  all_goals simp

/-- C6 witness: the amended statement at a concrete run. -/
theorem C6_no_busy_guard_witness :
    ETLScheduler.run_now 1 envC6 stC6 = ETLScheduler.run_etl_job 1 envC6 stC6
    ∧ ETLEvent.busyRejected 2 ∉ (ETLScheduler.run_now 1 envC6 stC6).events :=
  ⟨(C6_no_busy_guard 1 envC6 stC6).1, (C6_no_busy_guard 1 envC6 stC6).2 2⟩

end Helpdesk
